import Mathlib

/-
Verification development for the weather ETL pipeline (src/weather_etl.py).

The pipeline is embedded shallowly:
  - the retry decorator (weather_etl.py lines 15-29) becomes a fueled loop
    over an abstract per-attempt oracle, recording the sleeps it performs;
  - the MySQL table weather_records becomes a list of rows in insertion
    order, and INSERT ... ON DUPLICATE KEY UPDATE becomes an explicit
    first-match merge with MySQL affected-row counts (1 for a fresh insert,
    2 for an update that changes the row, 0 for an update that leaves the
    row unchanged);
  - JSON payloads become structures with Option fields, so that a missing
    dictionary key (a Python KeyError) is the None case;
  - the orchestrator loops become recursions over the city list that stop
    and surface the error when a non-retried exception escapes fetch_data,
    exactly as an uncaught Python exception would abort the loop.
-/

set_option autoImplicit false

/-- Exception kinds that can escape one attempt of the body of fetch_data
(requests.get, raise_for_status, response.json). The first five are the
tuple caught by the retry decorator on line 21 of weather_etl.py; the last
two (a JSON decode failure from response.json and a malformed URL) are not
in that tuple and therefore propagate. -/
inductive FetchError where
  | connectTimeout
  | httpError (status : Nat)
  | readTimeout
  | timeout
  | connectionError
  | jsonDecodeError
  | invalidURL
deriving DecidableEq

/-- Whether the retry decorator catches this exception: the except tuple on
line 21 is (ConnectTimeout, HTTPError, ReadTimeout, Timeout, ConnectionError).
Note that HTTPError, raised by raise_for_status on any non-2xx status, is in
the tuple. -/
def retryable : FetchError → Bool
  | FetchError.connectTimeout => true
  | FetchError.httpError _ => true
  | FetchError.readTimeout => true
  | FetchError.timeout => true
  | FetchError.connectionError => true
  | FetchError.jsonDecodeError => false
  | FetchError.invalidURL => false

/-- Observable behaviour of one call of the retry wrapper: the outcome
(Except.error e models an exception propagating to the caller, Except.ok
none models the wrapper returning Python None after exhausting retries,
Except.ok (some a) models success), the number of attempts made, and the
list of blocking sleep durations performed, in order. -/
structure RetryResult (α : Type) where
  outcome : Except FetchError (Option α)
  numAttempts : Nat
  sleeps : List Nat

/-- The loop body of the retry decorator: for attempt in range(1, 4) with
delay starting at 2 and doubling after every caught failure. The oracle f
gives the result of the n-th call of the wrapped function (0-based). The
fuel argument counts the remaining iterations of the for loop; made counts
calls already performed; acc accumulates sleeps in reverse. Note the code
sleeps inside the except block even on the final iteration, so a run that
exhausts all retries performs sleeps of 2, 4 and 8. -/
def retryLoop {α : Type} (f : Nat → Except FetchError α) :
    Nat → Nat → Nat → List Nat → RetryResult α
  | 0, _, made, acc =>
      { outcome := Except.ok none, numAttempts := made, sleeps := acc.reverse }
  | fuel + 1, delay, made, acc =>
      match f made with
      | Except.ok a =>
          { outcome := Except.ok (some a), numAttempts := made + 1, sleeps := acc.reverse }
      | Except.error e =>
          if retryable e then
            retryLoop f fuel (delay * 2) (made + 1) (delay :: acc)
          else
            { outcome := Except.error e, numAttempts := made + 1, sleeps := acc.reverse }

/-- The retry decorator (weather_etl.py lines 15-29): 3 total attempts,
initial delay 2, doubling after each caught failure, returning None after
the loop when every attempt failed with a caught exception. -/
def retry {α : Type} (f : Nat → Except FetchError α) : RetryResult α :=
  retryLoop f 3 2 0 []

/-- fetch_data (lines 78-82) is the retry decorator applied to one HTTP
GET + raise_for_status + json() attempt, abstracted as the oracle f. -/
def fetch_data {α : Type} (f : Nat → Except FetchError α) : RetryResult α :=
  retry f

/-- The type column of weather_records: ENUM of FORECAST and HISTORY. -/
inductive RecordType where
  | FORECAST
  | HISTORY
deriving DecidableEq

/-- One row of the weather_records table (create_table, lines 49-65),
without the surrogate auto-increment id. Numeric fields are modelled as
integers since the pipeline only moves them, never computes with them.
The column named type is rendered rtype. -/
structure WeatherRow where
  date : String
  location : String
  country : String
  min_temp : Int
  max_temp : Int
  humidity : Int
  air_quality : String
  rtype : RecordType
deriving DecidableEq

/-- The natural key of a row: the UNIQUE KEY unique_entry (date, location,
type) of the table. -/
def rowKey (r : WeatherRow) : String × String × RecordType :=
  (r.date, r.location, r.rtype)

/-- What ON DUPLICATE KEY UPDATE does to an existing row (lines 90-94): the
mutable fields min_temp, max_temp, humidity, air_quality take the incoming
values; date, location, type are the key, and country is not in the update
list, so it keeps its stored value. -/
def mergeRow (old new : WeatherRow) : WeatherRow :=
  { old with
    min_temp := new.min_temp
    max_temp := new.max_temp
    humidity := new.humidity
    air_quality := new.air_quality }

/-- insert_record (lines 84-114): INSERT ... ON DUPLICATE KEY UPDATE.
Returns the new table and the MySQL affected-row count: 1 when a fresh row
is inserted, 2 when an existing row is updated to different values, 0 when
the duplicate-key update leaves the row unchanged. At most one row can
match the unique key, so the first match is updated. -/
def insert_record : List WeatherRow → WeatherRow → List WeatherRow × Nat
  | [], r => ([r], 1)
  | q :: t, r =>
      if rowKey q = rowKey r then
        (mergeRow q r :: t, if mergeRow q r = q then 0 else 2)
      else
        let p := insert_record t r
        (q :: p.1, p.2)

/-- The log message chosen by insert_record (lines 108-111): rowcount 1
means the success-write branch (a fresh insert), anything else means the
updated-existing branch. -/
inductive WriteOutcome where
  | inserted
  | updated
deriving DecidableEq

/-- reportOutcome mirrors the branch on self.cursor.rowcount == 1. -/
def reportOutcome (rowcount : Nat) : WriteOutcome :=
  if rowcount = 1 then WriteOutcome.inserted else WriteOutcome.updated

/-- First row of the table with the given key, if any. -/
def findKey : List WeatherRow → String × String × RecordType → Option WeatherRow
  | [], _ => none
  | q :: t, k => if rowKey q = k then some q else findKey t k

/-- Number of rows of the table with the given key. -/
def countKey : List WeatherRow → String × String × RecordType → Nat
  | [], _ => 0
  | q :: t, k => (if rowKey q = k then 1 else 0) + countKey t k

/-- The uniqueness invariant enforced by UNIQUE KEY unique_entry: no two
rows share a (date, location, type) triple. -/
def keyUnique (t : List WeatherRow) : Prop :=
  t.Pairwise (fun a b => rowKey a ≠ rowKey b)

/-- The table produced by a sequence of pipeline writes starting from the
empty table created by create_table. -/
def applyWrites (rs : List WeatherRow) : List WeatherRow :=
  rs.foldl (fun t r => (insert_record t r).1) []

/-- The location block of a payload: data about name and country. A missing
field models a Python KeyError on that key. -/
structure RawLocation where
  name : Option String
  country : Option String
deriving DecidableEq

/-- The per-day inner day block: day_data under its day key. -/
structure RawDayInner where
  mintemp_c : Option Int
  maxtemp_c : Option Int
  avghumidity : Option Int
deriving DecidableEq

/-- One element of the forecastday list. -/
structure RawDay where
  date : Option String
  day : Option RawDayInner
deriving DecidableEq

/-- The forecast block of a payload. -/
structure RawForecast where
  forecastday : Option (List RawDay)
deriving DecidableEq

/-- The air_quality block inside the current block. -/
structure RawAirQuality where
  co : Option String
deriving DecidableEq

/-- The current block of a payload. -/
structure RawCurrent where
  air_quality : Option RawAirQuality
deriving DecidableEq

/-- A parsed JSON payload, restricted to the keys the pipeline reads. -/
structure Payload where
  location : Option RawLocation
  forecast : Option RawForecast
  current : Option RawCurrent
deriving DecidableEq

/-- The air-quality lookup on line 128: a chain of dict.get calls with
defaults, ending in the sentinel N/A; it never raises. -/
def airQualityOf (data : Payload) : String :=
  match data.current with
  | none => "N/A"
  | some cur =>
      match cur.air_quality with
      | none => "N/A"
      | some aq =>
          match aq.co with
          | none => "N/A"
          | some v => v

/-- Building the row dict for one day (lines 120-130). Any missing required
key raises a KeyError, modelled as none; mode becomes the row type. -/
def extractRow (data : Payload) (mode : RecordType) (day_data : RawDay) :
    Option WeatherRow := do
  let day ← day_data.day
  let date ← day_data.date
  let loc ← data.location
  let name ← loc.name
  let country ← loc.country
  let mn ← day.mintemp_c
  let mx ← day.maxtemp_c
  let hum ← day.avghumidity
  pure
    { date := date
      location := name
      country := country
      min_temp := mn
      max_temp := mx
      humidity := hum
      air_quality := airQualityOf data
      rtype := mode }

/-- All rows of a prefix of the day list, when every one of them extracts
successfully. -/
def extractRows (data : Payload) (mode : RecordType) :
    List RawDay → Option (List WeatherRow)
  | [] => some []
  | d :: ds =>
      match extractRow data mode d with
      | none => none
      | some r =>
          match extractRows data mode ds with
          | none => none
          | some rs => some (r :: rs)

/-- The for loop over forecast_days (lines 119-131): each day is extracted
and immediately upserted; the first day whose extraction raises aborts the
rest of the list, with the exception caught by the handler on line 132. The
Bool records whether the handler caught a structural error. -/
def writeDays (data : Payload) (mode : RecordType) :
    List WeatherRow → List RawDay → List WeatherRow × Bool
  | t, [] => (t, false)
  | t, d :: ds =>
      match extractRow data mode d with
      | none => (t, true)
      | some row => writeDays data mode (insert_record t row).1 ds

/-- extract_and_write (lines 116-134): reads data.forecast.forecastday
(raising, and being caught, when either key is absent) and runs the day
loop. It never propagates an exception to its caller. -/
def extract_and_write (t : List WeatherRow) (data : Payload)
    (mode : RecordType) : List WeatherRow × Bool :=
  match data.forecast with
  | none => (t, true)
  | some fc =>
      match fc.forecastday with
      | none => (t, true)
      | some days => writeDays data mode t days

/-- Whether the table holds at least one record for the given location. -/
def hasRecordFor (t : List WeatherRow) (city : String) : Bool :=
  t.any (fun r => r.location == city)

/-- run_forecast_etl (lines 152-158): for each city, fetch through the
retry wrapper (the per-attempt oracle for the URL built for that city is
env city); on data, transform and write; a Python None result skips the
city; a non-retried exception escaping fetch_data aborts the remaining
cities and is surfaced in the second component. -/
def run_forecast_etl (env : String → Nat → Except FetchError Payload) :
    List String → List WeatherRow → List WeatherRow × Option FetchError
  | [], t => (t, none)
  | city :: rest, t =>
      match (fetch_data (env city)).outcome with
      | Except.error e => (t, some e)
      | Except.ok none => run_forecast_etl env rest t
      | Except.ok (some data) =>
          run_forecast_etl env rest (extract_and_write t data RecordType.FORECAST).1

/-- The (city, date) arguments run_history_etl passes to build_history_url
(lines 160-166): for i in range(1, 4), the date today - i days, and inside
that loop every configured city. Dates are day numbers, so today - i is
the calendar day i days before today. -/
def history_requests (today : Int) (cities : List String) :
    List (String × Int) :=
  ([1, 2, 3] : List Int).flatMap (fun i => cities.map (fun city => (city, today - i)))

/-- The body of run_history_etl over its request sequence: same fetch and
error structure as the forecast loop, with HISTORY records. -/
def run_history_loop (env : String → Int → Nat → Except FetchError Payload) :
    List (String × Int) → List WeatherRow → List WeatherRow × Option FetchError
  | [], t => (t, none)
  | (city, dt) :: rest, t =>
      match (fetch_data (env city dt)).outcome with
      | Except.error e => (t, some e)
      | Except.ok none => run_history_loop env rest t
      | Except.ok (some data) =>
          run_history_loop env rest (extract_and_write t data RecordType.HISTORY).1

/-- run_history_etl (lines 160-169), with today fixed once at entry. -/
def run_history_etl (env : String → Int → Nat → Except FetchError Payload)
    (today : Int) (cities : List String) (t : List WeatherRow) :
    List WeatherRow × Option FetchError :=
  run_history_loop env (history_requests today cities) t

/-- Whether the run-scoped connection and cursor opened in init are still
open. -/
structure ConnState where
  conn_open : Bool
  cursor_open : Bool
deriving DecidableEq

/-- close_connection (lines 171-173): closes the cursor, then the
connection. -/
def close_connection (s : ConnState) : ConnState :=
  { s with cursor_open := false, conn_open := false }

/-- start (lines 175-180): run the forecast pass, then the history pass,
with close_connection in a finally block, so it runs both when the passes
finish normally and when an exception escapes them; a surfaced exception is
re-raised after the finally block, which the Option FetchError in the
result records. -/
def start (envF : String → Nat → Except FetchError Payload)
    (envH : String → Int → Nat → Except FetchError Payload)
    (cities : List String) (today : Int) (t : List WeatherRow)
    (s : ConnState) : (List WeatherRow × Option FetchError) × ConnState :=
  match run_forecast_etl envF cities t with
  | (t1, some e) => ((t1, some e), close_connection s)
  | (t1, none) => (run_history_etl envH today cities t1, close_connection s)

/-- A per-attempt oracle for a URL on which every attempt raises a
connect timeout. -/
def alwaysConnectTimeout : Nat → Except FetchError Unit :=
  fun _ => Except.error FetchError.connectTimeout

/-- A per-attempt oracle for a URL on which every attempt receives a 404
response, so raise_for_status raises HTTPError each time. -/
def always404 : Nat → Except FetchError Unit :=
  fun _ => Except.error (FetchError.httpError 404)

/-- A payload for the given city with one well-formed forecast day and no
current block. -/
def goodPayload (city : String) : Payload :=
  { location := some { name := some city, country := some "X" }
    forecast := some
      { forecastday := some
          [ { date := some "2024-05-01"
              day := some { mintemp_c := some 1, maxtemp_c := some 2, avghumidity := some 3 } } ] }
    current := none }

/-- A stored row for the Paris conflict-merge example of the spec. -/
def parisRow : WeatherRow :=
  { date := "2024-05-01", location := "Paris", country := "France",
    min_temp := 10, max_temp := 20, humidity := 50, air_quality := "N/A",
    rtype := RecordType.FORECAST }

/-- An incoming record with the same key as parisRow, a new max_temp and a
different country. -/
def parisUpdate : WeatherRow :=
  { parisRow with max_temp := 23, country := "Germany" }

/-- A payload whose transform yields at least one record for location c:
its forecast day list starts with a day whose extraction succeeds with a
row located at c. -/
def producesFor (p : Payload) (mode : RecordType) (c : String) : Prop :=
  ∃ fc d ds r, p.forecast = some fc ∧ fc.forecastday = some (d :: ds) ∧
    extractRow p mode d = some r ∧ r.location = c

/-- The per-URL oracle of the C3 counterexample run: the fetch for location
B raises a JSON decode error, which the retry decorator does not catch; the
other locations succeed with a well-formed payload. -/
def envC3 : String → Nat → Except FetchError Payload := fun city _ =>
  if city = "B" then Except.error FetchError.jsonDecodeError
  else Except.ok (goodPayload city)

/-- The oracle of the C3 witness run: the fetch for location B times out on
every attempt, so fetch_data exhausts its retries and returns None; the
other locations succeed. -/
def envC3w : String → Nat → Except FetchError Payload := fun city _ =>
  if city = "B" then Except.error FetchError.readTimeout
  else Except.ok (goodPayload city)

/-- A payload with no location block and an empty day list. -/
def noLocEmptyDays : Payload :=
  { location := none
    forecast := some { forecastday := some [] }
    current := none }

/-- A payload with no forecast block at all. -/
def noForecastPayload : Payload :=
  { location := some { name := some "A", country := some "X" }
    forecast := none
    current := none }

/-- A well-formed day block dated 2024-05-01. -/
def goodDay1 : RawDay :=
  { date := some "2024-05-01"
    day := some { mintemp_c := some 1, maxtemp_c := some 2, avghumidity := some 3 } }

/-- A well-formed day block dated 2024-05-02. -/
def goodDay2 : RawDay :=
  { date := some "2024-05-02"
    day := some { mintemp_c := some 4, maxtemp_c := some 5, avghumidity := some 6 } }

/-- A malformed day block: its day key is missing, so building its row
raises a KeyError. -/
def badDay : RawDay :=
  { date := some "2024-05-03", day := none }

/-- A payload whose day list is two well-formed days followed by a
malformed one. -/
def mixedDaysPayload : Payload :=
  { location := some { name := some "A", country := some "X" }
    forecast := some { forecastday := some [goodDay1, goodDay2, badDay] }
    current := none }

/-- The record extracted from goodDay1 of mixedDaysPayload. -/
def mixedRow1 : WeatherRow :=
  { date := "2024-05-01", location := "A", country := "X", min_temp := 1,
    max_temp := 2, humidity := 3, air_quality := "N/A",
    rtype := RecordType.FORECAST }

/-- The record extracted from goodDay2 of mixedDaysPayload. -/
def mixedRow2 : WeatherRow :=
  { date := "2024-05-02", location := "A", country := "X", min_temp := 4,
    max_temp := 5, humidity := 6, air_quality := "N/A",
    rtype := RecordType.FORECAST }

/-- When every one of the three attempts raises an exception the decorator
catches, the wrapper makes exactly 3 attempts, sleeps 2, 4 and 8 time-units
(the last sleep happens inside the except block of the final iteration,
before the loop ends), and returns None. -/
theorem retry_exhausts {α : Type} (f : Nat → Except FetchError α)
    (h : ∀ n, n < 3 → ∃ e, f n = Except.error e ∧ retryable e = true) :
    retry f = { outcome := Except.ok none, numAttempts := 3, sleeps := [2, 4, 8] } := by
  obtain ⟨e0, h0, r0⟩ := h 0 (by omega)
  obtain ⟨e1, h1, r1⟩ := h 1 (by omega)
  obtain ⟨e2, h2, r2⟩ := h 2 (by omega)
  simp [retry, retryLoop, h0, h1, h2, r0, r1, r2]

/-- C1, as stated, is false: a fetch whose every attempt raises a transient
transport error is indeed attempted exactly 3 times and returns None without
raising, but the blocking delays it incurs are 2, 4 and 8 time-units, not
just 2 and 4 — the code also sleeps 8 time-units after the third failed
attempt, before returning None. -/
theorem claim_C1_counterexample :
    (retry alwaysConnectTimeout).numAttempts = 3 ∧
    (retry alwaysConnectTimeout).outcome = Except.ok none ∧
    (retry alwaysConnectTimeout).sleeps = [2, 4, 8] ∧
    (retry alwaysConnectTimeout).sleeps ≠ [2, 4] :=
  ⟨rfl, rfl, rfl, by decide⟩

/-- C1 (amended): for every URL whose fetch raises a transient transport
error on every attempt, fetch_data makes exactly 3 attempts, with blocking
delays of 2 time-units after the first failed attempt, 4 after the second,
and an additional 8 after the third, and then returns None without raising
any exception to the caller. -/
theorem claim_C1 {α : Type} (f : Nat → Except FetchError α)
    (h : ∀ n, n < 3 → ∃ e, f n = Except.error e ∧ retryable e = true) :
    fetch_data f =
      { outcome := Except.ok none, numAttempts := 3, sleeps := [2, 4, 8] } :=
  retry_exhausts f h

/-- Witness for C1 at the oracle whose every attempt raises ConnectTimeout. -/
theorem claim_C1_witness :
    fetch_data alwaysConnectTimeout =
      { outcome := Except.ok none, numAttempts := 3, sleeps := [2, 4, 8] } :=
  claim_C1 alwaysConnectTimeout (fun _ _ => ⟨FetchError.connectTimeout, rfl, rfl⟩)

/-- C2, as stated, is false: a fetch receiving a 404 on every attempt does
not fail on the first attempt — raise_for_status raises HTTPError, which is
in the tuple of exceptions the retry decorator catches, so the fetch is
attempted 3 times with retry delays 2, 4 and 8, and then returns None. -/
theorem claim_C2_counterexample :
    (retry always404).numAttempts = 3 ∧
    (retry always404).numAttempts ≠ 1 ∧
    (retry always404).sleeps = [2, 4, 8] ∧
    (retry always404).sleeps ≠ [] ∧
    (retry always404).outcome = Except.ok none :=
  ⟨rfl, by decide, rfl, by decide, rfl⟩

/-- C2 (amended): for every fetch whose HTTP response has a non-2xx status
(e.g. 404) on every attempt, the raised HTTPError is treated like a
transient error: fetch_data makes 3 attempts with blocking delays of 2, 4
and 8 time-units and then returns None; it does not fail fast on the first
attempt. -/
theorem claim_C2 {α : Type} (f : Nat → Except FetchError α) (status : Nat)
    (h : ∀ n, f n = Except.error (FetchError.httpError status)) :
    fetch_data f =
      { outcome := Except.ok none, numAttempts := 3, sleeps := [2, 4, 8] } :=
  retry_exhausts f (fun n _ => ⟨FetchError.httpError status, h n, rfl⟩)

/-- Witness for C2 at the oracle whose every attempt yields a 404. -/
theorem claim_C2_witness :
    fetch_data always404 =
      { outcome := Except.ok none, numAttempts := 3, sleeps := [2, 4, 8] } :=
  claim_C2 always404 404 (fun _ => rfl)

theorem mergeRow_key (q r : WeatherRow) : rowKey (mergeRow q r) = rowKey q := rfl

theorem mergeRow_merge (q r : WeatherRow) : mergeRow (mergeRow q r) r = mergeRow q r := rfl

theorem mergeRow_self (r : WeatherRow) : mergeRow r r = r := rfl

/-- Upserting a record into a table that just received it changes nothing
and yields affected-row count 0. -/
theorem insert_record_twice (t : List WeatherRow) (r : WeatherRow) :
    insert_record (insert_record t r).1 r = ((insert_record t r).1, 0) := by
  induction t with
  | nil => simp [insert_record, mergeRow_self]
  | cons q t ih =>
      by_cases h : rowKey q = rowKey r
      · simp [insert_record, h, mergeRow_key, mergeRow_merge]
      · simp [insert_record, h, ih]

/-- C4: for every record and every store state, upserting the same
unchanged record twice leaves the store in the same final state as
upserting it once, and the second application reports the updated outcome,
not inserted (the second duplicate-key write changes nothing, so its
affected-row count is 0, which insert_record logs through its
updated-existing branch). -/
theorem claim_C4 (t : List WeatherRow) (r : WeatherRow) :
    (insert_record (insert_record t r).1 r).1 = (insert_record t r).1 ∧
    reportOutcome (insert_record (insert_record t r).1 r).2 = WriteOutcome.updated := by
  rw [insert_record_twice]
  exact ⟨rfl, rfl⟩

theorem countKey_eq_zero (t : List WeatherRow) (k : String × String × RecordType)
    (h : ∀ x ∈ t, rowKey x ≠ k) : countKey t k = 0 := by
  induction t with
  | nil => rfl
  | cons q t ih =>
      have hq : rowKey q ≠ k := h q (by simp)
      simp [countKey, hq]
      exact ih (fun x hx => h x (by simp [hx]))

/-- C5: for every valid store state holding a row q for the key of r,
upserting r results in exactly one row for that key, namely q updated with
the incoming mutable fields min_temp, max_temp, humidity and air_quality,
while the stored country value of q is preserved. -/
theorem claim_C5 (t : List WeatherRow) (r q : WeatherRow)
    (hu : keyUnique t) (hq : findKey t (rowKey r) = some q) :
    countKey (insert_record t r).1 (rowKey r) = 1 ∧
    findKey (insert_record t r).1 (rowKey r) = some (mergeRow q r) ∧
    (mergeRow q r).min_temp = r.min_temp ∧
    (mergeRow q r).max_temp = r.max_temp ∧
    (mergeRow q r).humidity = r.humidity ∧
    (mergeRow q r).air_quality = r.air_quality ∧
    (mergeRow q r).country = q.country := by
  refine ⟨?_, ?_, rfl, rfl, rfl, rfl, rfl⟩ <;>
  · induction t with
    | nil => simp [findKey] at hq
    | cons q0 t ih =>
        obtain ⟨h1, h2⟩ := List.pairwise_cons.mp hu
        by_cases h : rowKey q0 = rowKey r
        · have hq0 : q = q0 := by
            rw [findKey, if_pos h] at hq
            exact (Option.some.injEq _ _ ▸ hq).symm
          have hzero : countKey t (rowKey r) = 0 :=
            countKey_eq_zero t (rowKey r) (fun x hx => by
              have := h1 x hx
              rw [h] at this
              exact fun hc => this hc.symm)
          subst hq0
          simp [insert_record, h, countKey, findKey, mergeRow_key, hzero]
        · rw [findKey, if_neg h] at hq
          have := ih h2 hq
          simp [insert_record, h, countKey, findKey, mergeRow_key, this]

/-- Witness for C5 on the Paris example: one row remains for the key, its
max_temp becomes 23, and its country stays France. -/
theorem claim_C5_witness :
    countKey (insert_record [parisRow] parisUpdate).1 (rowKey parisUpdate) = 1 ∧
    findKey (insert_record [parisRow] parisUpdate).1 (rowKey parisUpdate) =
      some (mergeRow parisRow parisUpdate) ∧
    (mergeRow parisRow parisUpdate).min_temp = parisUpdate.min_temp ∧
    (mergeRow parisRow parisUpdate).max_temp = parisUpdate.max_temp ∧
    (mergeRow parisRow parisUpdate).humidity = parisUpdate.humidity ∧
    (mergeRow parisRow parisUpdate).air_quality = parisUpdate.air_quality ∧
    (mergeRow parisRow parisUpdate).country = parisRow.country :=
  claim_C5 [parisRow] parisUpdate parisRow (by simp [keyUnique]) (by decide)

/-- Every key present in the table after an upsert is either the key of the
upserted record or a key already present. -/
theorem insert_record_mem_key (t : List WeatherRow) (r x : WeatherRow)
    (hx : x ∈ (insert_record t r).1) :
    rowKey x = rowKey r ∨ ∃ y ∈ t, rowKey x = rowKey y := by
  induction t with
  | nil =>
      simp [insert_record] at hx
      subst hx
      exact Or.inl rfl
  | cons q t ih =>
      by_cases h : rowKey q = rowKey r
      · simp [insert_record, h] at hx
        rcases hx with hx | hx
        · subst hx
          exact Or.inr ⟨q, by simp, mergeRow_key q r⟩
        · exact Or.inr ⟨x, by simp [hx], rfl⟩
      · simp [insert_record, h] at hx
        rcases hx with hx | hx
        · subst hx
          exact Or.inr ⟨x, by simp, rfl⟩
        · rcases ih hx with hk | ⟨y, hy, hk⟩
          · exact Or.inl hk
          · exact Or.inr ⟨y, by simp [hy], hk⟩

/-- The upsert preserves the uniqueness of (date, location, type). -/
theorem insert_record_keyUnique (t : List WeatherRow) (r : WeatherRow)
    (h : keyUnique t) : keyUnique (insert_record t r).1 := by
  induction t with
  | nil => simp [insert_record, keyUnique]
  | cons q t ih =>
      obtain ⟨h1, h2⟩ := List.pairwise_cons.mp h
      by_cases hk : rowKey q = rowKey r
      · show List.Pairwise _ _
        simp only [insert_record, if_pos hk]
        exact List.pairwise_cons.mpr
          ⟨fun x hx => by rw [mergeRow_key]; exact h1 x hx, h2⟩
      · show List.Pairwise _ _
        simp only [insert_record, if_neg hk]
        refine List.pairwise_cons.mpr ⟨?_, ih h2⟩
        intro x hx
        rcases insert_record_mem_key t r x hx with hxr | ⟨y, hy, hxy⟩
        · rw [hxr]; exact hk
        · rw [hxy]; exact h1 y hy

theorem applyWrites_aux (rs : List WeatherRow) (t : List WeatherRow)
    (h : keyUnique t) :
    keyUnique (rs.foldl (fun t r => (insert_record t r).1) t) := by
  induction rs generalizing t with
  | nil => simpa
  | cons r rs ih => exact ih _ (insert_record_keyUnique t r h)

/-- C6: in every store state reachable by a sequence of pipeline writes
starting from the empty table, no two stored rows share an identical
(date, location, type) triple. -/
theorem claim_C6 (rs : List WeatherRow) : keyUnique (applyWrites rs) :=
  applyWrites_aux rs [] (by simp [keyUnique])

/-- C7: for every current date fixed at the start of the history pass, the
pass requests exactly the 3 most recent past calendar days: a pair
(city, dt) is passed to build_history_url if and only if city is a
configured location and dt is today - 1, today - 2 or today - 3. -/
theorem claim_C7 (today : Int) (cities : List String) (city : String) (dt : Int) :
    (city, dt) ∈ history_requests today cities ↔
      city ∈ cities ∧ (dt = today - 1 ∨ dt = today - 2 ∨ dt = today - 3) := by
  simp only [history_requests, List.mem_flatMap, List.mem_map, List.mem_cons,
    List.not_mem_nil, or_false, Prod.mk.injEq]
  constructor
  · rintro ⟨i, hi, c, hc, hcc, hdt⟩
    subst hcc
    subst hdt
    exact ⟨hc, by rcases hi with rfl | rfl | rfl <;> simp⟩
  · rintro ⟨hc, hdt⟩
    rcases hdt with rfl | rfl | rfl
    · exact ⟨1, Or.inl rfl, city, hc, rfl, rfl⟩
    · exact ⟨2, Or.inr (Or.inl rfl), city, hc, rfl, rfl⟩
    · exact ⟨3, Or.inr (Or.inr rfl), city, hc, rfl, rfl⟩

/-- C9: for every run, whether the forecast and history passes finish
normally or surface an exception, close_connection has run by the time
start returns, so the connection and cursor of the run are released. -/
theorem claim_C9 (envF : String → Nat → Except FetchError Payload)
    (envH : String → Int → Nat → Except FetchError Payload)
    (cities : List String) (today : Int) (t : List WeatherRow) (s : ConnState) :
    ((start envF envH cities today t s).2).conn_open = false ∧
    ((start envF envH cities today t s).2).cursor_open = false := by
  unfold start
  cases hr : run_forecast_etl envF cities t with
  | mk t1 e1 =>
      cases e1 <;> exact ⟨rfl, rfl⟩

/-- When the payload has no location block, building the row for any day
raises a KeyError. -/
theorem extractRow_none_of_no_location (data : Payload) (mode : RecordType)
    (d : RawDay) (h : data.location = none) :
    extractRow data mode d = none := by
  obtain ⟨ddate, dday⟩ := d
  unfold extractRow
  cases dday <;> cases ddate <;> simp [h]

/-- C8, as stated, is false on one boundary payload: with the location
block missing but the day list present and empty, the day loop body never
runs, so no KeyError is raised and the transform completes without a
structural error (flag false) instead of failing for the payload. -/
theorem claim_C8_counterexample :
    noLocEmptyDays.location = none ∧
    extract_and_write [] noLocEmptyDays RecordType.FORECAST = ([], false) :=
  ⟨rfl, rfl⟩

/-- C8 (amended): a payload missing its day list (no forecast block or no
forecastday key), or missing its location block while its day list is
nonempty, fails the transform with a structural error for the entire
payload: the store is left unchanged (no day of the list is written) and
the error is caught inside extract_and_write (flag true) rather than
propagated to the caller. A payload missing only the location block whose
day list is empty completes without an error. -/
theorem claim_C8 (t : List WeatherRow) (data : Payload) (mode : RecordType)
    (h : data.forecast = none ∨
         (∃ fc, data.forecast = some fc ∧ fc.forecastday = none) ∨
         (data.location = none ∧
          ∃ fc d ds, data.forecast = some fc ∧ fc.forecastday = some (d :: ds))) :
    extract_and_write t data mode = (t, true) := by
  rcases h with h | ⟨fc, h1, h2⟩ | ⟨hloc, fc, d, ds, h1, h2⟩
  · simp [extract_and_write, h]
  · simp [extract_and_write, h1, h2]
  · simp [extract_and_write, h1, h2, writeDays,
      extractRow_none_of_no_location data mode d hloc]

/-- Witness for C8 at a payload with no forecast block. -/
theorem claim_C8_witness :
    extract_and_write [] noForecastPayload RecordType.FORECAST = ([], true) :=
  claim_C8 [] noForecastPayload RecordType.FORECAST (Or.inl rfl)

/-- C10: when the day list is a block of well-formed days followed by a
malformed one, extract_and_write upserts exactly the records of the
well-formed prefix, in list order, and then stops with the structural
error caught; the records already upserted stay in the store (no
rollback). -/
theorem claim_C10 (t : List WeatherRow) (data : Payload) (mode : RecordType)
    (good : List RawDay) (bad : RawDay) (rest : List RawDay)
    (fc : RawForecast) (rows : List WeatherRow)
    (h1 : data.forecast = some fc)
    (h2 : fc.forecastday = some (good ++ bad :: rest))
    (h3 : extractRows data mode good = some rows)
    (h4 : extractRow data mode bad = none) :
    extract_and_write t data mode =
      (rows.foldl (fun s r => (insert_record s r).1) t, true) := by
  simp only [extract_and_write, h1, h2]
  clear h2 h1
  induction good generalizing rows t with
  | nil =>
      simp only [extractRows] at h3
      cases h3
      simp [writeDays, h4]
  | cons d ds ih =>
      simp only [extractRows] at h3
      cases he : extractRow data mode d with
      | none => rw [he] at h3; exact absurd h3 (by simp)
      | some r =>
          rw [he] at h3
          cases hrs : extractRows data mode ds with
          | none => rw [hrs] at h3; exact absurd h3 (by simp)
          | some rs =>
              rw [hrs] at h3
              injection h3 with h3
              subst h3
              simp only [List.cons_append, writeDays, he, List.foldl]
              exact ih _ _ hrs

/-- Witness for C10 on the two-good-days-then-malformed payload: both good
records end up in the store, in order, and the error flag is set. -/
theorem claim_C10_witness :
    extract_and_write [] mixedDaysPayload RecordType.FORECAST =
      ([mixedRow1, mixedRow2].foldl (fun s r => (insert_record s r).1) [], true) :=
  claim_C10 [] mixedDaysPayload RecordType.FORECAST [goodDay1, goodDay2] badDay []
    { forecastday := some [goodDay1, goodDay2, badDay] } [mixedRow1, mixedRow2]
    rfl rfl rfl rfl

theorem hasRecordFor_iff (t : List WeatherRow) (c : String) :
    hasRecordFor t c = true ↔ ∃ r ∈ t, r.location = c := by
  simp [hasRecordFor]

/-- Every location stored in the table is still stored after an upsert. -/
theorem insert_record_location_mem (t : List WeatherRow) (r x : WeatherRow)
    (hx : x ∈ t) : ∃ y ∈ (insert_record t r).1, y.location = x.location := by
  induction t with
  | nil => simp at hx
  | cons q t ih =>
      by_cases hk : rowKey q = rowKey r
      · simp only [insert_record, if_pos hk]
        rcases List.mem_cons.mp hx with rfl | hx
        · exact ⟨mergeRow x r, by simp, rfl⟩
        · exact ⟨x, by simp [hx], rfl⟩
      · simp only [insert_record, if_neg hk]
        rcases List.mem_cons.mp hx with rfl | hx
        · exact ⟨x, by simp, rfl⟩
        · obtain ⟨y, hy, hyl⟩ := ih hx
          exact ⟨y, by simp [hy], hyl⟩

theorem hasRecordFor_insert (t : List WeatherRow) (r : WeatherRow) (c : String)
    (h : hasRecordFor t c = true) :
    hasRecordFor (insert_record t r).1 c = true := by
  rw [hasRecordFor_iff] at h ⊢
  obtain ⟨x, hx, hxc⟩ := h
  obtain ⟨y, hy, hyl⟩ := insert_record_location_mem t r x hx
  exact ⟨y, hy, hyl.trans hxc⟩

/-- After upserting r, some row carries the location of r. -/
theorem hasRecordFor_insert_self (t : List WeatherRow) (r : WeatherRow) :
    hasRecordFor (insert_record t r).1 r.location = true := by
  rw [hasRecordFor_iff]
  induction t with
  | nil => exact ⟨r, by simp [insert_record], rfl⟩
  | cons q t ih =>
      by_cases hk : rowKey q = rowKey r
      · have hl : q.location = r.location := congrArg (fun k => k.2.1) hk
        exact ⟨mergeRow q r, by simp [insert_record, hk], hl⟩
      · obtain ⟨y, hy, hyl⟩ := ih
        exact ⟨y, by simp [insert_record, hk, hy], hyl⟩

theorem hasRecordFor_writeDays (data : Payload) (mode : RecordType)
    (t : List WeatherRow) (ds : List RawDay) (c : String)
    (h : hasRecordFor t c = true) :
    hasRecordFor (writeDays data mode t ds).1 c = true := by
  induction ds generalizing t with
  | nil => simpa [writeDays]
  | cons d ds ih =>
      cases he : extractRow data mode d with
      | none => simpa [writeDays, he]
      | some r =>
          simp only [writeDays, he]
          exact ih _ (hasRecordFor_insert t r c h)

theorem hasRecordFor_extract (t : List WeatherRow) (data : Payload)
    (mode : RecordType) (c : String) (h : hasRecordFor t c = true) :
    hasRecordFor (extract_and_write t data mode).1 c = true := by
  obtain ⟨loc, fc, cur⟩ := data
  cases fc with
  | none => simpa [extract_and_write]
  | some fcv =>
      cases hdl : fcv.forecastday with
      | none => simpa [extract_and_write, hdl]
      | some days =>
          simp only [extract_and_write, hdl]
          exact hasRecordFor_writeDays _ mode t days c h

/-- A payload that produces a record for c leaves a record for c in the
store after its transform-and-write step. -/
theorem hasRecordFor_extract_self (t : List WeatherRow) (p : Payload)
    (mode : RecordType) (c : String) (h : producesFor p mode c) :
    hasRecordFor (extract_and_write t p mode).1 c = true := by
  obtain ⟨fc, d, ds, r, h1, h2, h3, h4⟩ := h
  simp only [extract_and_write, h1, h2, writeDays, h3]
  subst h4
  exact hasRecordFor_writeDays p mode _ ds r.location (hasRecordFor_insert_self t r)

/-- A location with a stored record keeps it through the rest of the
forecast pass, whatever the later units do. -/
theorem hasRecordFor_run_forecast (env : String → Nat → Except FetchError Payload)
    (cities : List String) (t : List WeatherRow) (c : String)
    (h : hasRecordFor t c = true) :
    hasRecordFor (run_forecast_etl env cities t).1 c = true := by
  induction cities generalizing t with
  | nil => simpa [run_forecast_etl]
  | cons city rest ih =>
      cases ho : (fetch_data (env city)).outcome with
      | error e => simpa [run_forecast_etl, ho]
      | ok v =>
          cases v with
          | none =>
              simp only [run_forecast_etl, ho]
              exact ih t h
          | some data =>
              simp only [run_forecast_etl, ho]
              exact ih _ (hasRecordFor_extract t data RecordType.FORECAST c h)

/-- C3, as stated, is false: with configured locations A, B, C where the
fetch of B fails with a non-retried exception (a JSON decode error on its
response body), the forecast pass stores records for A but the exception
aborts the loop before C is attempted, so C produces no stored record and
the exception surfaces from the pass. -/
theorem claim_C3_counterexample :
    hasRecordFor (run_forecast_etl envC3 ["A", "B", "C"] []).1 "A" = true ∧
    hasRecordFor (run_forecast_etl envC3 ["A", "B", "C"] []).1 "C" = false ∧
    (run_forecast_etl envC3 ["A", "B", "C"] []).2 = some FetchError.jsonDecodeError :=
  ⟨rfl, rfl, rfl⟩

/-- C3 (amended): a per-unit failure that the pipeline catches does not
prevent the remaining units: with 3 configured locations where the 2nd
unit's fetch returns data or exhausts its retries and returns None (its
transform, if any, may also fail, being caught inside extract_and_write),
while the 1st and 3rd units fetch payloads yielding records for their
locations, the 1st and 3rd locations still have stored records after the
forecast pass. A fetch raising a non-retried exception instead aborts the
remaining units, as the counterexample shows. -/
theorem claim_C3 (env : String → Nat → Except FetchError Payload)
    (c1 c2 c3 : String) (t : List WeatherRow) (p1 p3 : Payload)
    (h1 : (fetch_data (env c1)).outcome = Except.ok (some p1))
    (h3 : (fetch_data (env c3)).outcome = Except.ok (some p3))
    (h2 : ∃ v, (fetch_data (env c2)).outcome = Except.ok v)
    (hp1 : producesFor p1 RecordType.FORECAST c1)
    (hp3 : producesFor p3 RecordType.FORECAST c3) :
    hasRecordFor (run_forecast_etl env [c1, c2, c3] t).1 c1 = true ∧
    hasRecordFor (run_forecast_etl env [c1, c2, c3] t).1 c3 = true := by
  obtain ⟨v, h2⟩ := h2
  have key1 : hasRecordFor (extract_and_write t p1 RecordType.FORECAST).1 c1 = true :=
    hasRecordFor_extract_self t p1 RecordType.FORECAST c1 hp1
  cases v with
  | none =>
      have e : run_forecast_etl env [c1, c2, c3] t =
          ((extract_and_write
              (extract_and_write t p1 RecordType.FORECAST).1
              p3 RecordType.FORECAST).1, none) := by
        simp only [run_forecast_etl, h1, h2, h3]
      rw [e]
      exact ⟨hasRecordFor_extract _ p3 RecordType.FORECAST c1 key1,
             hasRecordFor_extract_self _ p3 RecordType.FORECAST c3 hp3⟩
  | some p2 =>
      have e : run_forecast_etl env [c1, c2, c3] t =
          ((extract_and_write
              (extract_and_write
                (extract_and_write t p1 RecordType.FORECAST).1
                p2 RecordType.FORECAST).1
              p3 RecordType.FORECAST).1, none) := by
        simp only [run_forecast_etl, h1, h2, h3]
      rw [e]
      exact ⟨hasRecordFor_extract _ p3 RecordType.FORECAST c1
               (hasRecordFor_extract _ p2 RecordType.FORECAST c1 key1),
             hasRecordFor_extract_self _ p3 RecordType.FORECAST c3 hp3⟩

/-- Witness for C3: locations A, B, C where the fetch of B times out on
every attempt and returns None; A and C still get stored records. -/
theorem claim_C3_witness :
    hasRecordFor (run_forecast_etl envC3w ["A", "B", "C"] []).1 "A" = true ∧
    hasRecordFor (run_forecast_etl envC3w ["A", "B", "C"] []).1 "C" = true :=
  claim_C3 envC3w "A" "B" "C" [] (goodPayload "A") (goodPayload "C")
    rfl rfl ⟨none, rfl⟩
    ⟨_, _, _, _, rfl, rfl, rfl, rfl⟩
    ⟨_, _, _, _, rfl, rfl, rfl, rfl⟩
